import Mathlib

/-!
# Verification of the Claude proxy service's process lifecycle core

Shallow embedding of `app/claude_runner.py` and `app/main.py` of the
`headless-agent-manager` repository, together with theorems settling the
frozen claims about command assembly, stream delivery, the session
registry, and the termination state machine.

Conventions of the embedding:
* Python dicts of environment variables and of active processes are
  modelled as association lists with first-match lookup semantics.
* `subprocess.Popen` side effects are modelled by returning a value that
  records the command string, the environment and the working directory
  handed to the operating system.
* Real time in `stop_agent`'s polling loop is modelled by the index of
  the `poll()` call; the loop makes some number `n` of polls during the
  grace period.
* Raw bytes are `Nat` values `< 256`; UTF-8 decoding is implemented
  strictly (rejecting overlong forms and surrogates), as Python's
  `bytes.decode("utf-8")` does.
-/

/-- Embeds the dataclass `ClaudeRunnerConfig` of `claude_runner.py`. -/
structure ClaudeRunnerConfig where
  claude_cli_path : String := "claude"
  use_subscription : Bool := true
  default_model : String := "claude-sonnet-4-5-20250929"
  default_max_tokens : Nat := 4096
deriving Repr, DecidableEq

/-- The option keys that `claude_runner.py` and `main.py` read from the
`options` dict.  A `none` field models the key being absent.  The
`allowed_tools` / `disallowed_tools` keys are asserted by the repository's
`tests/test_tool_filtering.py`; the frozen `_build_command` never reads
them, which the corresponding theorem records. -/
structure AgentOptions where
  session_id : Option String := none
  model : Option String := none
  working_directory : Option String := none
  mcp_config : Option String := none
  mcp_strict : Bool := false
  allowed_tools : Option (List String) := none
  disallowed_tools : Option (List String) := none
deriving Repr, DecidableEq

/-- Embeds Python's `sep.join(parts)` (used as `" ".join(parts)` at the end
of `_build_command`). -/
def pyJoin (sep : String) : List String → String
  | [] => ""
  | [x] => x
  | x :: y :: xs => x ++ sep ++ pyJoin sep (y :: xs)

/-- The list `parts` built by `_build_command` (claude_runner.py lines
168-184): a fixed prefix, then `--session-id` and `--model` exactly when
the corresponding key is present.  No other option key is consulted. -/
def build_command_parts (cfg : ClaudeRunnerConfig) (prompt : String)
    (options : AgentOptions) : List String :=
  let parts := [cfg.claude_cli_path, "-p", "\"" ++ prompt ++ "\"",
    "--output-format", "stream-json", "--verbose",
    "--include-partial-messages"]
  let parts := match options.session_id with
    | some s => parts ++ ["--session-id", s]
    | none => parts
  match options.model with
  | some m => parts ++ ["--model", m]
  | none => parts

/-- Embeds `_build_command` (claude_runner.py line 186): the parts joined
by single spaces into one shell command string. -/
def build_command (cfg : ClaudeRunnerConfig) (prompt : String)
    (options : AgentOptions) : String :=
  pyJoin " " (build_command_parts cfg prompt options)

/-- POSIX-shell field splitting restricted to the constructs the built
command can contain: whitespace separation and double quotes (no
expansions or backslash escapes are modelled; none are needed for the
inputs considered).  `inQ` is "inside double quotes", `hasQ` records that
the current field contained quotes (so a quoted empty field is kept),
`acc` is the reversed current field. -/
def shellSplitAux : List Char → Bool → Bool → List Char → List (List Char)
  | [], _, hasQ, acc =>
    if acc = [] ∧ hasQ = false then [] else [acc.reverse]
  | c :: rest, inQ, hasQ, acc =>
    if c = '"' then
      shellSplitAux rest (!inQ) true acc
    else if c = ' ' ∧ inQ = false then
      if acc = [] ∧ hasQ = false then
        shellSplitAux rest false false []
      else
        acc.reverse :: shellSplitAux rest false false []
    else
      shellSplitAux rest inQ hasQ (c :: acc)

/-- The argument vector a POSIX shell hands to the child for a given
command string (for the fragment of shell syntax modelled above).
`subprocess.Popen(command, shell=True)` runs `/bin/sh -c command`, so this
is what the child process receives as its argv. -/
def shellSplit (s : String) : List String :=
  (shellSplitAux s.data false false []).map (fun cs => String.mk cs)

/-- A Python dict of environment variables, modelled as an association
list with first-match lookup. -/
abbrev Env := List (String × String)

/-- Embeds `dict.pop(k, None)` (resp. `del dict[k]`) for a
string-keyed dict: every binding of `k` is removed (a dict holds at most
one). -/
def dictPop {β : Type} (l : List (String × β)) (k : String) :
    List (String × β) :=
  l.filter (fun p => p.1 != k)

/-- Embeds `dict[k] = v` with respect to lookup: any old binding of `k`
is replaced by `v`. -/
def dictSet {β : Type} (l : List (String × β)) (k : String) (v : β) :
    List (String × β) :=
  dictPop l k ++ [(k, v)]

theorem lookup_cons_of_ne {β : Type} (a : String) (p : String × β)
    (t : List (String × β)) (h : a ≠ p.1) :
    List.lookup a (p :: t) = List.lookup a t := by
  obtain ⟨pk, pv⟩ := p
  have hb : (a == pk) = false := beq_eq_false_iff_ne.mpr h
  simp [List.lookup_cons, hb]

theorem lookup_cons_head {β : Type} (p : String × β)
    (t : List (String × β)) : List.lookup p.1 (p :: t) = some p.2 := by
  obtain ⟨pk, pv⟩ := p
  simp [List.lookup_cons]

theorem dictPop_cons_eq {β : Type} (p : String × β)
    (t : List (String × β)) (k : String) (h : p.1 = k) :
    dictPop (p :: t) k = dictPop t k := by
  simp [dictPop, List.filter_cons, h]

theorem dictPop_cons_ne {β : Type} (p : String × β)
    (t : List (String × β)) (k : String) (h : ¬p.1 = k) :
    dictPop (p :: t) k = p :: dictPop t k := by
  simp [dictPop, List.filter_cons, h]

theorem lookup_dictPop_self {β : Type} (l : List (String × β))
    (k : String) : (dictPop l k).lookup k = none := by
  induction l with
  | nil => rfl
  | cons p t ih =>
    by_cases h : p.1 = k
    · rw [dictPop_cons_eq p t k h]; exact ih
    · rw [dictPop_cons_ne p t k h, lookup_cons_of_ne k p _ (Ne.symm h)]
      exact ih

theorem lookup_dictPop_ne {β : Type} (l : List (String × β))
    (k k' : String) (h : k' ≠ k) :
    (dictPop l k).lookup k' = l.lookup k' := by
  induction l with
  | nil => rfl
  | cons p t ih =>
    by_cases hp : p.1 = k
    · rw [dictPop_cons_eq p t k hp, lookup_cons_of_ne k' p t (hp ▸ h)]
      exact ih
    · by_cases hk : k' = p.1
      · rw [dictPop_cons_ne p t k hp, hk, lookup_cons_head, lookup_cons_head]
      · rw [dictPop_cons_ne p t k hp, lookup_cons_of_ne k' p _ hk,
          lookup_cons_of_ne k' p t hk]
        exact ih

theorem lookup_dictSet_self {β : Type} (l : List (String × β))
    (k : String) (v : β) : (dictSet l k v).lookup k = some v := by
  unfold dictSet
  rw [List.lookup_append, lookup_dictPop_self]
  simp [List.lookup_cons]

theorem lookup_dictSet_ne {β : Type} (l : List (String × β))
    (k k' : String) (v : β) (h : k' ≠ k) :
    (dictSet l k v).lookup k' = l.lookup k' := by
  unfold dictSet
  have hb : (k' == k) = false := beq_eq_false_iff_ne.mpr h
  rw [List.lookup_append, lookup_dictPop_ne l k k' h]
  simp [List.lookup_cons, hb]

/-- Embeds `_prepare_environment` (claude_runner.py lines 188-202): copy
the ambient environment (taken here as an explicit argument — the copy is
the fresh value this function returns), drop `ANTHROPIC_API_KEY`, and set
`CLAUDE_USE_SUBSCRIPTION` to `"true"` when subscription mode is
configured. -/
def prepare_environment (cfg : ClaudeRunnerConfig) (ambient : Env) : Env :=
  let env := dictPop ambient "ANTHROPIC_API_KEY"
  if cfg.use_subscription then dictSet env "CLAUDE_USE_SUBSCRIPTION" "true"
  else env

/-- The operating-system services `start_agent` consults, abstracted:
`os.path.expanduser`, `os.path.abspath`, `os.path.isdir`.  These live in
the Python standard library, outside the repository. -/
structure OsModel where
  expanduser : String → String
  abspath : String → String
  isdir : String → Bool

/-- Outcome of `ClaudeRunner.start_agent`: either a process was spawned
(recording the command string, environment and working directory handed
to `subprocess.Popen`) or the call raised before any spawn. -/
inductive StartResult where
  | spawned (command : String) (env : Env) (cwd : Option String)
  | invalidWorkingDirectory (message : String)
deriving Repr, DecidableEq

/-- Embeds `ClaudeRunner.start_agent` (claude_runner.py lines 50-78):
build the command, prepare the environment, then — only when a truthy
working directory was supplied (Python's `if cwd:` treats `None` and the
empty string as falsy) — expand `~`, resolve to an absolute path and
raise `RuntimeError` before `Popen` when the result is not a directory.
-/
def start_agent (os : OsModel) (cfg : ClaudeRunnerConfig) (ambient : Env)
    (prompt : String) (options : AgentOptions) : StartResult :=
  let command := build_command cfg prompt options
  let env := prepare_environment cfg ambient
  match options.working_directory with
  | some c =>
    if c = "" then .spawned command env (some c)
    else
      let resolved := os.abspath (os.expanduser c)
      if os.isdir resolved then .spawned command env (some resolved)
      else .invalidWorkingDirectory
        ("Working directory does not exist: " ++ resolved)
  | none => .spawned command env none

/-- C9: `_prepare_environment` yields the ambient environment with the
credential variable `ANTHROPIC_API_KEY` removed; `CLAUDE_USE_SUBSCRIPTION`
is bound to `"true"` exactly when subscription mode is configured and is
left as in the ambient environment otherwise; every other variable is
unchanged; and no precondition is needed — in particular the ambient
environment need not contain the credential variable.  (The function
returns a fresh mapping; the argument `ambient` is a value, never mutated.)
-/
theorem prepare_environment_spec (cfg : ClaudeRunnerConfig) (ambient : Env)
    (k : String) :
    (prepare_environment cfg ambient).lookup "ANTHROPIC_API_KEY" = none ∧
    (cfg.use_subscription = true →
      (prepare_environment cfg ambient).lookup "CLAUDE_USE_SUBSCRIPTION" =
        some "true") ∧
    (cfg.use_subscription = false →
      (prepare_environment cfg ambient).lookup "CLAUDE_USE_SUBSCRIPTION" =
        ambient.lookup "CLAUDE_USE_SUBSCRIPTION") ∧
    (k ≠ "ANTHROPIC_API_KEY" → k ≠ "CLAUDE_USE_SUBSCRIPTION" →
      (prepare_environment cfg ambient).lookup k = ambient.lookup k) := by
  unfold prepare_environment
  have hne : "ANTHROPIC_API_KEY" ≠ "CLAUDE_USE_SUBSCRIPTION" := by decide
  refine ⟨?_, ?_, ?_, ?_⟩
  · cases hs : cfg.use_subscription with
    | true =>
      simp only [hs, if_pos]
      rw [lookup_dictSet_ne _ _ _ _ hne]
      exact lookup_dictPop_self ambient _
    | false =>
      simp only [hs, Bool.false_eq_true, if_neg, not_false_iff]
      exact lookup_dictPop_self ambient _
  · intro hs
    simp only [hs, if_pos]
    exact lookup_dictSet_self _ _ _
  · intro hs
    simp only [hs, Bool.false_eq_true, if_neg, not_false_iff]
    exact lookup_dictPop_ne _ _ _ (Ne.symm hne)
  · intro h1 h2
    cases hs : cfg.use_subscription with
    | true =>
      simp only [hs, if_pos]
      rw [lookup_dictSet_ne _ _ _ _ h2]
      exact lookup_dictPop_ne _ _ _ h1
    | false =>
      simp only [hs, Bool.false_eq_true, if_neg, not_false_iff]
      exact lookup_dictPop_ne _ _ _ h1

/-- Witness for C9 at a concrete ambient environment containing the
credential variable and an unrelated variable. -/
theorem prepare_environment_spec_witness :
    (prepare_environment {} [("ANTHROPIC_API_KEY", "sk-secret"),
        ("PATH", "/usr/bin")]).lookup "ANTHROPIC_API_KEY" = none ∧
    (prepare_environment {} [("ANTHROPIC_API_KEY", "sk-secret"),
        ("PATH", "/usr/bin")]).lookup "CLAUDE_USE_SUBSCRIPTION" =
      some "true" ∧
    (prepare_environment {} [("ANTHROPIC_API_KEY", "sk-secret"),
        ("PATH", "/usr/bin")]).lookup "PATH" =
      [("ANTHROPIC_API_KEY", "sk-secret"),
        ("PATH", "/usr/bin")].lookup "PATH" := by
  obtain ⟨h1, h2, _, h4⟩ := prepare_environment_spec {}
    [("ANTHROPIC_API_KEY", "sk-secret"), ("PATH", "/usr/bin")] "PATH"
  exact ⟨h1, h2 rfl, h4 (by decide) (by decide)⟩

/-- C8: whenever a (truthy) working directory is supplied, `start_agent`
resolves it by expanding the home shorthand then taking the absolute
path; if the resolved path is not an existing directory the call fails
with the descriptive error and no spawn occurs; otherwise the spawn uses
exactly the resolved directory (no silent fallback). -/
theorem working_directory_validated_before_spawn (os : OsModel)
    (cfg : ClaudeRunnerConfig) (ambient : Env) (prompt : String)
    (options : AgentOptions) (d : String)
    (hd : options.working_directory = some d) (hne : d ≠ "") :
    (os.isdir (os.abspath (os.expanduser d)) = false →
      start_agent os cfg ambient prompt options =
        .invalidWorkingDirectory
          ("Working directory does not exist: " ++
            os.abspath (os.expanduser d))) ∧
    (os.isdir (os.abspath (os.expanduser d)) = true →
      start_agent os cfg ambient prompt options =
        .spawned (build_command cfg prompt options)
          (prepare_environment cfg ambient)
          (some (os.abspath (os.expanduser d)))) := by
  unfold start_agent
  rw [hd]
  constructor
  · intro hdir
    simp [hne, hdir]
  · intro hdir
    simp [hne, hdir]

/-- Witness for C8: with path resolution taken as the identity and a file
system containing no directories, launching with working directory
`"/nope"` fails descriptively, and with a file system where every path is
a directory it spawns there. -/
theorem working_directory_validated_witness :
    start_agent ⟨fun s => s, fun s => s, fun _ => false⟩ {} []
        "hi" { working_directory := some "/nope" } =
      .invalidWorkingDirectory "Working directory does not exist: /nope" ∧
    start_agent ⟨fun s => s, fun s => s, fun _ => true⟩ {} []
        "hi" { working_directory := some "/nope" } =
      .spawned (build_command {} "hi" { working_directory := some "/nope" })
        (prepare_environment {} []) (some "/nope") := by
  constructor
  · exact (working_directory_validated_before_spawn
      ⟨fun s => s, fun s => s, fun _ => false⟩ {} [] "hi"
      { working_directory := some "/nope" } "/nope" rfl (by decide)).1 rfl
  · exact (working_directory_validated_before_spawn
      ⟨fun s => s, fun s => s, fun _ => true⟩ {} [] "hi"
      { working_directory := some "/nope" } "/nope" rfl (by decide)).2 rfl

/-- Any element of the joined list occurs verbatim inside the joined
string. -/
theorem mem_pyJoin_space (l : List String) (x : String) (hx : x ∈ l) :
    ∃ pre post : List Char, (pyJoin " " l).data = pre ++ x.data ++ post := by
  induction l with
  | nil => cases hx
  | cons a t ih =>
    cases t with
    | nil =>
      have hax : x = a := List.mem_singleton.mp hx
      exact ⟨[], [], by simp [pyJoin, hax]⟩
    | cons b t2 =>
      rcases List.mem_cons.mp hx with hax | hmem
      · exact ⟨[], (" " ++ pyJoin " " (b :: t2)).data,
          by simp [pyJoin, String.data_append, hax]⟩
      · obtain ⟨pre, post, hp⟩ := ih hmem
        exact ⟨(a ++ " ").data ++ pre, post,
          by simp [pyJoin, String.data_append, hp]⟩

/-- C10: for every configuration, prompt and options mapping, the command
assembled by `_build_command` contains the partial-message streaming flag
`--include-partial-messages`, both as an element of the `parts` list and
verbatim inside the joined command string: fine-grained incremental
delivery is enabled unconditionally, independent of caller options. -/
theorem include_partial_messages_always_present (cfg : ClaudeRunnerConfig)
    (prompt : String) (options : AgentOptions) :
    "--include-partial-messages" ∈ build_command_parts cfg prompt options ∧
    ∃ pre post : List Char,
      (build_command cfg prompt options).data =
        pre ++ "--include-partial-messages".data ++ post := by
  have hmem : "--include-partial-messages" ∈
      build_command_parts cfg prompt options := by
    unfold build_command_parts
    rcases options.session_id with _ | s <;> rcases options.model with _ | m <;>
      simp
  exact ⟨hmem, mem_pyJoin_space _ _ hmem⟩

/-- C1 (code bug): the frozen `_build_command` never reads the
`allowed_tools` / `disallowed_tools` keys, so on the very inputs the
repository's `tests/test_tool_filtering.py` exercises (a non-empty
allowed list `["Read"]`, a non-empty denied list `["Bash"]`) the
assembled command carries no capability flag at all — neither as a
substring nor as a shell token — contradicting the tests' assertion that
`--allowed-tools Read` (resp. `--disallowed-tools Bash`) is present. -/
theorem allowed_tools_flag_never_emitted :
    build_command {} "Test prompt" { allowed_tools := some ["Read"] } =
      "claude -p \"Test prompt\" --output-format stream-json --verbose --include-partial-messages" ∧
    build_command {} "Test prompt" { disallowed_tools := some ["Bash"] } =
      "claude -p \"Test prompt\" --output-format stream-json --verbose --include-partial-messages" ∧
    "--allowed-tools" ∉
      shellSplit (build_command {} "Test prompt" { allowed_tools := some ["Read"] }) ∧
    "--disallowed-tools" ∉
      shellSplit (build_command {} "Test prompt" { disallowed_tools := some ["Bash"] }) := by
  exact ⟨by rfl, by rfl, by decide, by decide⟩

/-- C3 (code bug): `_build_command` wraps the prompt in bare double
quotes inside a single command string and `start_agent` passes that
string to a shell (`shell=True`).  For the prompt `x" --model evil "y`
the shell splits the prompt's content into further tokens: the child's
argument vector contains `--model` and `evil` as separate arguments and
does not contain the prompt as a single argument. -/
theorem prompt_not_single_argument_under_shell :
    shellSplit (build_command {} "x\" --model evil \"y" {}) =
      ["claude", "-p", "x", "--model", "evil", "y", "--output-format",
        "stream-json", "--verbose", "--include-partial-messages"] ∧
    "--model" ∈ shellSplit (build_command {} "x\" --model evil \"y" {}) ∧
    "x\" --model evil \"y" ∉
      shellSplit (build_command {} "x\" --model evil \"y" {}) := by
  exact ⟨by decide, by decide, by decide⟩

theorem lookup_eq_none_of_not_mem_keys {β : Type} (l : List (String × β))
    (k : String) (h : k ∉ l.map Prod.fst) : l.lookup k = none := by
  rw [List.lookup_eq_none_iff]
  intro p hp
  exact bne_iff_ne.mpr (fun he => h (he ▸ List.mem_map_of_mem Prod.fst hp))

theorem dictPop_eq_self_of_lookup_none {β : Type} (l : List (String × β))
    (k : String) (h : l.lookup k = none) : dictPop l k = l := by
  induction l with
  | nil => rfl
  | cons p t ih =>
    by_cases hk : k = p.1
    · rw [hk, lookup_cons_head] at h
      cases h
    · rw [lookup_cons_of_ne k p t hk] at h
      rw [dictPop_cons_ne p t k (fun he => hk he.symm), ih h]

/-- The keys of an association list are pairwise distinct — the invariant
every Python dict enjoys. -/
abbrev nodupKeys {β : Type} (l : List (String × β)) : Prop :=
  (l.map Prod.fst).Nodup

theorem length_dictPop_add_one {β : Type} (l : List (String × β))
    (k : String) (v : β) (hn : nodupKeys l) (hs : l.lookup k = some v) :
    l.length = (dictPop l k).length + 1 := by
  induction l with
  | nil => cases hs
  | cons p t ih =>
    have hn' := List.nodup_cons.mp hn
    by_cases hk : k = p.1
    · rw [dictPop_cons_eq p t k hk.symm,
        dictPop_eq_self_of_lookup_none t k
          (lookup_eq_none_of_not_mem_keys t k (hk ▸ hn'.1))]
      simp
    · rw [lookup_cons_of_ne k p t hk] at hs
      rw [dictPop_cons_ne p t k (fun he => hk he.symm)]
      simp only [List.length_cons, ih hn'.2 hs]

/-- Actions `ClaudeRunner.stop_agent` performs on the process handle:
whether `terminate()` (graceful signal), `kill()` (forceful signal) and
`wait()` (blocking reap) were called. -/
structure StopTrace where
  terminated : Bool
  killed : Bool
  waited : Bool
deriving Repr, DecidableEq

/-- The grace-period polling loop of `stop_agent` (claude_runner.py lines
101-105): starting from poll index `i` with `m` polls remaining, reports
whether some poll observed the process's exit. -/
def pollLoop (poll : Nat → Bool) : Nat → Nat → Bool
  | _, 0 => false
  | i, m + 1 => poll i || pollLoop poll (i + 1) m

/-- Embeds `ClaudeRunner.stop_agent` (claude_runner.py lines 83-109) over
a discrete time model: `poll i` is the result of the i-th call to
`process.poll()` (`true` = an exit status is available; a Unix process
that has exited keeps reporting its status), and `n` is the number of
polls the grace-period loop performs before `time.time() - start_time`
reaches `timeout` (about `timeout / 0.1` in the source).  Poll index 0 is
the initial already-stopped check; if it observes exit the call returns
at once with no signal sent.  Otherwise `terminate()` is sent, the loop
polls; on an observed exit the call returns; after the grace period
`kill()` is sent and `wait()` blocks until the process is reaped. -/
def stop_agent (poll : Nat → Bool) (n : Nat) : StopTrace :=
  if poll 0 then ⟨false, false, false⟩
  else if pollLoop poll 1 n then ⟨true, false, false⟩
  else ⟨true, true, true⟩

/-- The registry `active_processes` of main.py: agent id → process (the
process represented by its pid). -/
abbrev Registry := List (String × Nat)

/-- `len(active_processes)`: the `active_agents` field the `/health`
endpoint reports (main.py line 68). -/
def health_active_agents (r : Registry) : Nat := r.length

/-- Registry effect of a successful `POST /agent/start` (main.py lines
94-102): the spawned process is inserted under a freshly generated
`agent_id`, which is returned. -/
def start_agent_route (r : Registry) (id : String) (pid : Nat) :
    Registry × String :=
  (dictSet r id pid, id)

/-- Registry effect of a successful `POST /agent/stream` before streaming
begins (main.py lines 130-134). -/
def stream_agent_route (r : Registry) (id : String) (pid : Nat) :
    Registry :=
  dictSet r id pid

/-- The `finally` block of `event_generator` (main.py lines 155-158),
run when the stream completes, errors, or is cancelled:
`if agent_id in active_processes: del active_processes[agent_id]`. -/
def finalize_stream (r : Registry) (id : String) : Registry :=
  if (r.lookup id).isSome then dictPop r id else r

/-- Outcome of `POST /agent/stop/{agent_id}`. -/
inductive StopResponse where
  | stopped
  | notFound
deriving Repr, DecidableEq

/-- Embeds `stop_agent` of main.py (lines 175-198): look the agent up,
answer 404 `notFound` when absent, otherwise stop the process and delete
the entry. -/
def stop_agent_route (r : Registry) (id : String) :
    Registry × StopResponse :=
  match r.lookup id with
  | none => (r, .notFound)
  | some _ => (dictPop r id, .stopped)

/-- C6: termination is idempotent.  At the runner, `stop_agent` on a
process whose very first poll reports an exit status returns immediately
without sending any signal (and without error — the function is total).
At the boundary, once `StopSession` succeeded for an identifier, a second
`StopSession` on the same identifier answers `notFound`, never a
double-termination error. -/
theorem stop_idempotent (poll : Nat → Bool) (n : Nat) (r : Registry)
    (id : String) :
    (poll 0 = true → stop_agent poll n = ⟨false, false, false⟩) ∧
    ((stop_agent_route r id).2 = .stopped →
      (stop_agent_route (stop_agent_route r id).1 id).2 = .notFound) := by
  constructor
  · intro h
    simp [stop_agent, h]
  · intro _
    unfold stop_agent_route
    cases hl : r.lookup id with
    | none => simp [hl, lookup_dictPop_self]
    | some v => simp [hl, lookup_dictPop_self]

/-- Witness for C6: an already-exited process (every poll reports exit)
receives no signal, and stopping the one-entry registry twice answers
`notFound` the second time. -/
theorem stop_idempotent_witness :
    stop_agent (fun _ => true) 50 = ⟨false, false, false⟩ ∧
    (stop_agent_route (stop_agent_route [("a", 1)] "a").1 "a").2 =
      .notFound := by
  have h := stop_idempotent (fun _ => true) 50 [("a", 1)] "a"
  exact ⟨h.1 rfl, h.2 (by decide)⟩

/-- C7: escalation order of `stop_agent` on a running process.  The
forceful `kill()` is sent only when the graceful `terminate()` was sent
first and the whole grace period elapsed with no poll observing an exit;
if some poll within the grace period observes the exit, the call returns
with no `kill()`; and whenever `kill()` is sent, the call blocks in
`wait()` until the operating system confirms the reap. -/
theorem stop_escalation_order (poll : Nat → Bool) (n : Nat) :
    ((stop_agent poll n).killed = true →
      (stop_agent poll n).terminated = true ∧ poll 0 = false ∧
      pollLoop poll 1 n = false ∧ (stop_agent poll n).waited = true) ∧
    (poll 0 = false → pollLoop poll 1 n = true →
      stop_agent poll n = ⟨true, false, false⟩) := by
  constructor
  · intro hk
    unfold stop_agent at hk ⊢
    cases h0 : poll 0 with
    | true => rw [h0] at hk; simp at hk
    | false =>
      cases hp : pollLoop poll 1 n with
      | true => rw [h0, hp] at hk; simp at hk
      | false => simp [h0, hp]
  · intro h0 hp
    simp [stop_agent, h0, hp]

/-- Witness for C7: a process that ignores the graceful signal (all polls
false) is killed and reaped after the grace period; one that exits at the
third in-loop poll is never killed. -/
theorem stop_escalation_order_witness :
    ((stop_agent (fun _ => false) 50).terminated = true ∧
      (fun (_ : Nat) => false) 0 = false ∧
      pollLoop (fun _ => false) 1 50 = false ∧
      (stop_agent (fun _ => false) 50).waited = true) ∧
    stop_agent (fun i => decide (i = 3)) 50 = ⟨true, false, false⟩ := by
  constructor
  · exact (stop_escalation_order (fun _ => false) 50).1 (by decide)
  · exact (stop_escalation_order (fun i => decide (i = 3)) 50).2
      (by decide) (by decide)

theorem lookup_finalize_stream_self (r : Registry) (id : String) :
    (finalize_stream r id).lookup id = none := by
  unfold finalize_stream
  by_cases hl : (r.lookup id).isSome = true
  · rw [if_pos hl]
    exact lookup_dictPop_self r id
  · rw [if_neg hl]
    exact Option.not_isSome_iff_eq_none.mp hl

/-- C4 counterexample: start a streaming session `a` into an empty
registry, let `StopSession` succeed on it, then let the stream's
finalization run (the reachable interleaving in which the caller stops
the agent while its stream is still being consumed; killing the child
makes the stream hit end-of-file afterwards).  The stop has already
removed the entry, so finalization leaves the count unchanged — it does
not decrease it by exactly 1 as the claim demands for every stream
completion. -/
theorem finalize_after_stop_does_not_decrement :
    (stop_agent_route (stream_agent_route [] "a" 1) "a").2 =
      StopResponse.stopped ∧
    health_active_agents
        (finalize_stream (stop_agent_route (stream_agent_route [] "a" 1) "a").1 "a") =
      health_active_agents (stop_agent_route (stream_agent_route [] "a" 1) "a").1 ∧
    ¬ (health_active_agents (stop_agent_route (stream_agent_route [] "a" 1) "a").1 =
        health_active_agents
          (finalize_stream (stop_agent_route (stream_agent_route [] "a" 1) "a").1 "a") + 1) := by
  refine ⟨by decide, by decide, by decide⟩

/-- C4 (amended): inserting a session under a fresh identifier — the
start route and the stream route alike — increases the health count by
exactly 1; a `StopSession` that succeeds decreases it by exactly 1; the
stream's finalization decreases it by exactly 1 when the session is still
registered and leaves the count unchanged when the session was already
released; and in every case finalization leaves the identifier absent
from the registry. -/
theorem registry_count_transitions (r : Registry) (id : String)
    (pid : Nat) :
    (r.lookup id = none →
      health_active_agents (start_agent_route r id pid).1 =
        health_active_agents r + 1 ∧
      health_active_agents (stream_agent_route r id pid) =
        health_active_agents r + 1) ∧
    (nodupKeys r → (stop_agent_route r id).2 = StopResponse.stopped →
      health_active_agents r =
        health_active_agents (stop_agent_route r id).1 + 1) ∧
    (nodupKeys r → (r.lookup id).isSome = true →
      health_active_agents r =
        health_active_agents (finalize_stream r id) + 1) ∧
    (r.lookup id = none → finalize_stream r id = r) ∧
    (finalize_stream r id).lookup id = none := by
  refine ⟨?_, ?_, ?_, ?_, ?_⟩
  · intro h
    have hlen : (dictSet r id pid).length = r.length + 1 := by
      unfold dictSet
      rw [dictPop_eq_self_of_lookup_none r id h, List.length_append]
      rfl
    exact ⟨hlen, hlen⟩
  · intro hn hs
    unfold stop_agent_route at hs ⊢
    cases hl : r.lookup id with
    | none =>
      rw [hl] at hs
      exact StopResponse.noConfusion hs
    | some v =>
      exact length_dictPop_add_one r id v hn hl
  · intro hn hs
    cases hl : r.lookup id with
    | none => rw [hl] at hs; cases hs
    | some v =>
      unfold finalize_stream
      rw [hl]
      simp only [Option.isSome_some, if_pos]
      exact length_dictPop_add_one r id v hn hl
  · intro h
    unfold finalize_stream
    rw [h]
    simp
  · exact lookup_finalize_stream_self r id

/-- Witness for C4's amended statement on a concrete two-entry registry.
-/
theorem registry_count_transitions_witness :
    health_active_agents (start_agent_route [("b", 2)] "a" 1).1 =
      health_active_agents [("b", 2)] + 1 ∧
    health_active_agents [("b", 2), ("a", 1)] =
      health_active_agents (stop_agent_route [("b", 2), ("a", 1)] "a").1 + 1 ∧
    health_active_agents [("b", 2), ("a", 1)] =
      health_active_agents (finalize_stream [("b", 2), ("a", 1)] "a") + 1 ∧
    finalize_stream [("b", 2)] "a" = [("b", 2)] ∧
    (finalize_stream [("b", 2), ("a", 1)] "a").lookup "a" = none := by
  obtain ⟨h1, -, -, -, -⟩ := registry_count_transitions [("b", 2)] "a" 1
  obtain ⟨-, h2, h3, -, h5⟩ :=
    registry_count_transitions [("b", 2), ("a", 1)] "a" 1
  obtain ⟨-, -, -, h4, -⟩ := registry_count_transitions [("b", 2)] "a" 1
  exact ⟨(h1 (by decide)).1, h2 (by decide) (by decide),
    h3 (by decide) (by decide), h4 (by decide), h5⟩

/-- The boundary operations that mutate or read the registry, as a step
alphabet for execution traces.  `finalizeOp` is the `finally` block of a
stream's `event_generator`; the program runs it only for sessions that
were created by the stream route (the start route creates no generator).
-/
inductive Op where
  | startOp (id : String) (pid : Nat)
  | streamStartOp (id : String) (pid : Nat)
  | finalizeOp (id : String)
  | stopOp (id : String)
  | healthOp
deriving Repr, DecidableEq

/-- One execution step acting on the registry. -/
def runOp (r : Registry) : Op → Registry
  | .startOp id pid => (start_agent_route r id pid).1
  | .streamStartOp id pid => stream_agent_route r id pid
  | .finalizeOp id => finalize_stream r id
  | .stopOp id => (stop_agent_route r id).1
  | .healthOp => r

/-- The registry after the first `n` steps of an infinite behavior,
starting from the empty registry the module initializes. -/
def stateAt (b : Nat → Op) : Nat → Registry
  | 0 => []
  | n + 1 => runOp (stateAt b n) (b n)

/-- The behaviors the program can actually produce: a finalization step
for `id` only happens for a session the stream route created earlier, and
generated identifiers (`uuid4`) are fresh — a creation step never reuses
an identifier still in the registry. -/
def ValidBehavior (b : Nat → Op) : Prop :=
  (∀ n id, b n = Op.finalizeOp id →
    ∃ m, m < n ∧ ∃ pid, b m = Op.streamStartOp id pid) ∧
  (∀ n id pid,
    (b n = Op.startOp id pid ∨ b n = Op.streamStartOp id pid) →
    (stateAt b n).lookup id = none)

/-- Formalization of claim C5: in every behavior of the program, every
session ever created is eventually absent from the registry. -/
def EventuallyReleased : Prop :=
  ∀ b : Nat → Op, ValidBehavior b → ∀ n id pid,
    (b n = Op.startOp id pid ∨ b n = Op.streamStartOp id pid) →
    ∃ m, n < m ∧ (stateAt b m).lookup id = none

/-- The behavior in which a session is created through the start route
and the service then only answers health checks — no `StopSession` ever
arrives and the start route spawns no stream whose finalization could
reap the entry. -/
def zombieBehavior : Nat → Op :=
  fun n => if n = 0 then Op.startOp "a" 1 else Op.healthOp

theorem stateAt_zombieBehavior (k : Nat) :
    stateAt zombieBehavior (k + 1) = [("a", 1)] := by
  induction k with
  | zero => rfl
  | succ m ih =>
    have hop : zombieBehavior (m + 1) = Op.healthOp := by
      unfold zombieBehavior
      simp
    show runOp (stateAt zombieBehavior (m + 1)) (zombieBehavior (m + 1)) =
      [("a", 1)]
    rw [hop, ih]
    rfl

/-- C5 counterexample: the claim "every created session is eventually
removed from the registry" is false — `zombieBehavior` is a valid
behavior of the program, yet the session created at step 0 through the
start route is in the registry at every later time. -/
theorem start_session_can_remain_forever : ¬ EventuallyReleased := by
  intro h
  have hvalid : ValidBehavior zombieBehavior := by
    constructor
    · intro n id hfin
      unfold zombieBehavior at hfin
      by_cases h0 : n = 0
      · rw [if_pos h0] at hfin; cases hfin
      · rw [if_neg h0] at hfin; cases hfin
    · intro n id pid hc
      by_cases h0 : n = 0
      · subst h0
        rfl
      · unfold zombieBehavior at hc
        rcases hc with hc | hc <;> rw [if_neg h0] at hc <;> cases hc
  obtain ⟨m, hm, hnone⟩ := h zombieBehavior hvalid 0 "a" 1
    (Or.inl (by unfold zombieBehavior; simp))
  obtain ⟨k, rfl⟩ : ∃ k, m = k + 1 := ⟨m - 1, by omega⟩
  rw [stateAt_zombieBehavior k] at hnone
  cases hnone

/-- C5 (amended): a registry entry is removed only by a `StopSession` on
its identifier or by its stream's finalization; finalization always
removes the entry; but a session created through the start route has no
stream, so when no `StopSession` for it ever arrives its entry persists
forever — the start path can leave a zombie entry, as `zombieBehavior`
shows at every time `k + 1`. -/
theorem registry_release_paths :
    (∀ (r : Registry) (op : Op) (id : String),
      (runOp r op).lookup id = none →
      r.lookup id = none ∨ op = Op.stopOp id ∨ op = Op.finalizeOp id) ∧
    (∀ (r : Registry) (id : String),
      (finalize_stream r id).lookup id = none) ∧
    (∀ k, stateAt zombieBehavior (k + 1) = [("a", 1)]) := by
  refine ⟨?_, lookup_finalize_stream_self, stateAt_zombieBehavior⟩
  · intro r op id h
    cases op with
    | startOp id' pid =>
      by_cases he : id = id'
      · subst he
        have h2 : (dictSet r id pid).lookup id = none := h
        rw [lookup_dictSet_self] at h2
        cases h2
      · have h2 : (dictSet r id' pid).lookup id = none := h
        rw [lookup_dictSet_ne r id' id pid he] at h2
        exact Or.inl h2
    | streamStartOp id' pid =>
      by_cases he : id = id'
      · subst he
        have h2 : (dictSet r id pid).lookup id = none := h
        rw [lookup_dictSet_self] at h2
        cases h2
      · have h2 : (dictSet r id' pid).lookup id = none := h
        rw [lookup_dictSet_ne r id' id pid he] at h2
        exact Or.inl h2
    | finalizeOp id' =>
      by_cases he : id = id'
      · exact Or.inr (Or.inr (he ▸ rfl))
      · have h2 : (finalize_stream r id').lookup id = none := h
        unfold finalize_stream at h2
        by_cases hl : (r.lookup id').isSome = true
        · rw [if_pos hl] at h2
          have h3 : (dictPop r id').lookup id = none := h2
          rw [lookup_dictPop_ne r id' id he] at h3
          exact Or.inl h3
        · rw [if_neg hl] at h2
          exact Or.inl h2
    | stopOp id' =>
      by_cases he : id = id'
      · exact Or.inr (Or.inl (he ▸ rfl))
      · have h2 : List.lookup id
            (match r.lookup id' with
              | none => (r, StopResponse.notFound)
              | some _ => (dictPop r id', StopResponse.stopped)).1 =
            none := h
        cases hl : r.lookup id' with
        | none =>
          rw [hl] at h2
          exact Or.inl h2
        | some v =>
          rw [hl] at h2
          have h3 : (dictPop r id').lookup id = none := h2
          rw [lookup_dictPop_ne r id' id he] at h3
          exact Or.inl h3
    | healthOp => exact Or.inl h

/-- Witness for C5's amended statement at concrete instances: removing
`a` from the one-entry registry by an operation that is neither a stop
nor a finalization of `a` is impossible (instantiated at `healthOp`,
whose step preserves the entry), finalization removes a present entry,
and the zombie entry persists at time 3. -/
theorem registry_release_paths_witness :
    ((runOp [("a", 1)] Op.healthOp).lookup "a" = none →
      ([("a", 1)] : Registry).lookup "a" = none ∨
      Op.healthOp = Op.stopOp "a" ∨ Op.healthOp = Op.finalizeOp "a") ∧
    (finalize_stream [("a", 1)] "a").lookup "a" = none ∧
    stateAt zombieBehavior 3 = [("a", 1)] := by
  exact ⟨registry_release_paths.1 [("a", 1)] Op.healthOp "a",
    registry_release_paths.2.1 [("a", 1)] "a",
    registry_release_paths.2.2 2⟩

/-- A UTF-8 continuation byte `10xxxxxx`. -/
def isCont (c : Nat) : Bool := 0x80 ≤ c && c ≤ 0xBF

/-- Admissible first continuation byte of a 3-byte sequence (strict UTF-8:
no overlong forms for `0xE0`, no surrogates for `0xED`). -/
def cont3ok (b c1 : Nat) : Bool :=
  if b = 0xE0 then 0xA0 ≤ c1 && c1 ≤ 0xBF
  else if b = 0xED then 0x80 ≤ c1 && c1 ≤ 0x9F
  else isCont c1

/-- Admissible first continuation byte of a 4-byte sequence (strict UTF-8:
no overlong forms for `0xF0`, nothing above U+10FFFF for `0xF4`). -/
def cont4ok (b c1 : Nat) : Bool :=
  if b = 0xF0 then 0x90 ≤ c1 && c1 ≤ 0xBF
  else if b = 0xF4 then 0x80 ≤ c1 && c1 ≤ 0x8F
  else isCont c1

/-- Strict UTF-8 decoding of a byte sequence, as Python's
`bytes.decode("utf-8")`: `none` models the `UnicodeDecodeError` raised on
malformed input. -/
def decodeUtf8 : List Nat → Option (List Char)
  | [] => some []
  | b :: rest =>
    if b ≤ 0x7F then
      (decodeUtf8 rest).map (fun cs => Char.ofNat b :: cs)
    else if 0xC2 ≤ b && b ≤ 0xDF then
      match rest with
      | c1 :: rest1 =>
        if isCont c1 then
          (decodeUtf8 rest1).map
            (fun cs => Char.ofNat ((b - 0xC0) * 64 + (c1 - 0x80)) :: cs)
        else none
      | [] => none
    else if 0xE0 ≤ b && b ≤ 0xEF then
      match rest with
      | c1 :: c2 :: rest2 =>
        if cont3ok b c1 && isCont c2 then
          (decodeUtf8 rest2).map (fun cs =>
            Char.ofNat
              ((b - 0xE0) * 4096 + (c1 - 0x80) * 64 + (c2 - 0x80)) :: cs)
        else none
      | _ => none
    else if 0xF0 ≤ b && b ≤ 0xF4 then
      match rest with
      | c1 :: c2 :: c3 :: rest3 =>
        if cont4ok b c1 && isCont c2 && isCont c3 then
          (decodeUtf8 rest3).map (fun cs =>
            Char.ofNat ((b - 0xF0) * 262144 + (c1 - 0x80) * 4096 +
              (c2 - 0x80) * 64 + (c3 - 0x80)) :: cs)
        else none
      | _ => none
    else none

/-- The characters Python's `str.strip()` (with no argument) removes:
exactly those for which `str.isspace()` holds. -/
def isPySpace (c : Char) : Bool :=
  c.toNat = 9 || c.toNat = 10 || c.toNat = 11 || c.toNat = 12 ||
  c.toNat = 13 || (28 ≤ c.toNat && c.toNat ≤ 31) || c.toNat = 32 ||
  c.toNat = 133 || c.toNat = 160 || c.toNat = 0x1680 ||
  (0x2000 ≤ c.toNat && c.toNat ≤ 0x200A) || c.toNat = 0x2028 ||
  c.toNat = 0x2029 || c.toNat = 0x202F || c.toNat = 0x205F ||
  c.toNat = 0x3000

/-- Embeds Python's `str.strip()`: removes leading and trailing
whitespace. -/
def pyStrip (s : List Char) : List Char :=
  ((s.dropWhile isPySpace).reverse.dropWhile isPySpace).reverse

/-- What the spec's definition of a Line prescribes instead: strip only
the trailing line terminators.  (Written from the spec's words, for
comparison with the code's `strip()`.) -/
def stripLineTerminators (s : List Char) : List Char :=
  (s.reverse.dropWhile (fun c => c = '\n' || c = '\r')).reverse

/-- Embeds `ClaudeRunner.read_stream` (claude_runner.py lines 111-128):
iterate the raw stdout lines in order; decode each as UTF-8, `strip()`
it, and yield it only when non-empty.  The input is the sequence of raw
byte lines the pipe produces; the result pairs the delivered lines with
`true`, or the lines delivered before a decode error with `false` (the
iteration raises and stops at the first undecodable line). -/
def read_stream : List (List Nat) → List (List Char) × Bool
  | [] => ([], true)
  | raw :: rest =>
    match decodeUtf8 raw with
    | none => ([], false)
    | some cs =>
      let decoded := pyStrip cs
      let tail := read_stream rest
      if decoded = [] then tail else (decoded :: tail.1, tail.2)

/-- Embeds `ClaudeRunner.async_read_stream` (claude_runner.py lines
130-164): the `readline()` loop until the empty EOF result, with the same
per-line decode-strip-suppress processing.  The executor indirection is
scheduling only; the delivered sequence is a function of the same raw
line sequence. -/
def async_read_stream : List (List Nat) → List (List Char) × Bool
  | [] => ([], true)
  | raw :: rest =>
    match decodeUtf8 raw with
    | none => ([], false)
    | some cs =>
      let decoded := pyStrip cs
      let tail := async_read_stream rest
      if decoded = [] then tail else (decoded :: tail.1, tail.2)

/-- Decode every raw line; `none` when any line is undecodable. -/
def decodeAll : List (List Nat) → Option (List (List Char))
  | [] => some []
  | raw :: rest =>
    match decodeUtf8 raw, decodeAll rest with
    | some cs, some ds => some (cs :: ds)
    | _, _ => none

/-- The delivery claim C2 prescribes, written from the spec's words:
decode each raw line, strip only its trailing line terminators, drop the
lines that are empty after stripping. -/
def claimedDeliver (raws : List (List Nat)) : Option (List (List Char)) :=
  (decodeAll raws).map
    (fun ds => (ds.map stripLineTerminators).filter (fun d => d ≠ []))

theorem async_read_stream_eq_read_stream (raws : List (List Nat)) :
    async_read_stream raws = read_stream raws := by
  induction raws with
  | nil => rfl
  | cons raw rest ih =>
    cases hd : decodeUtf8 raw with
    | none => simp [async_read_stream, read_stream, hd]
    | some cs => simp [async_read_stream, read_stream, hd, ih]

/-- C2 counterexample: for the single raw line `b"  hi\n"` the claim
demands delivery of `"  hi"` (only the trailing terminator stripped), but
`read_stream` delivers `"hi"` — Python's `strip()` removes the leading
whitespace as well. -/
theorem read_stream_strips_leading_whitespace :
    claimedDeliver [[32, 32, 104, 105, 10]] =
      some [[' ', ' ', 'h', 'i']] ∧
    (read_stream [[32, 32, 104, 105, 10]]).1 = [['h', 'i']] ∧
    ¬ ((read_stream [[32, 32, 104, 105, 10]]).1 =
        [[' ', ' ', 'h', 'i']]) := by
  refine ⟨by decide, by decide, by decide⟩

/-- C2 (amended): for every decodable raw line sequence, `read_stream`
delivers, in the original order with nothing reordered, exactly the
UTF-8 decoding of each raw line stripped of leading *and* trailing
whitespace (Python `strip()` — this includes the trailing line
terminator), with every line that is empty after stripping omitted; and
`async_read_stream` delivers the identical sequence. -/
theorem read_stream_delivers_stripped_nonempty (raws : List (List Nat))
    (decoded : List (List Char)) (h : decodeAll raws = some decoded) :
    read_stream raws =
      ((decoded.map pyStrip).filter (fun d => d ≠ []), true) ∧
    async_read_stream raws = read_stream raws := by
  refine ⟨?_, async_read_stream_eq_read_stream raws⟩
  induction raws generalizing decoded with
  | nil =>
    simp only [decodeAll, Option.some.injEq] at h
    subst h
    rfl
  | cons raw rest ih =>
    cases hd : decodeUtf8 raw with
    | none => simp [decodeAll, hd] at h
    | some cs =>
      cases hm : decodeAll rest with
      | none => simp [decodeAll, hd, hm] at h
      | some ds =>
        simp only [decodeAll, hd, hm, Option.some.injEq] at h
        subst h
        by_cases hp : pyStrip cs = []
        · simp [read_stream, hd, hp, ih ds hm, List.filter_cons]
        · simp [read_stream, hd, hp, ih ds hm, List.filter_cons]

/-- Witness for C2's amended statement on the concrete raw lines
`b"hi\n"`, `b"\n"`, `b"  \n"`, `b"\xe2\x9c\x85 ok\n"`: the blank lines
are suppressed, the others arrive stripped and in order. -/
theorem read_stream_delivers_stripped_nonempty_witness :
    decodeAll [[104, 105, 10], [10], [32, 32, 10],
        [226, 156, 133, 32, 111, 107, 10]] =
      some [['h', 'i', '\n'], ['\n'], [' ', ' ', '\n'],
        ['✅', ' ', 'o', 'k', '\n']] ∧
    read_stream [[104, 105, 10], [10], [32, 32, 10],
        [226, 156, 133, 32, 111, 107, 10]] =
      (([['h', 'i', '\n'], ['\n'], [' ', ' ', '\n'],
          ['✅', ' ', 'o', 'k', '\n']].map pyStrip).filter
        (fun d => d ≠ []), true) ∧
    async_read_stream [[104, 105, 10], [10], [32, 32, 10],
        [226, 156, 133, 32, 111, 107, 10]] =
      read_stream [[104, 105, 10], [10], [32, 32, 10],
        [226, 156, 133, 32, 111, 107, 10]] := by
  have h := read_stream_delivers_stripped_nonempty
    [[104, 105, 10], [10], [32, 32, 10], [226, 156, 133, 32, 111, 107, 10]]
    [['h', 'i', '\n'], ['\n'], [' ', ' ', '\n'], ['✅', ' ', 'o', 'k', '\n']]
    (by decide)
  exact ⟨by decide, h.1, h.2⟩
